import Mathlib

/-!
Shallow embedding of the event-management backend
(`src/event-management-system/backend/app.py`, Flask + SQLAlchemy).

The persistent store is modelled as explicit lists of rows with
auto-increment counters.  External collaborators are parameters:

* `hash` models `bcrypt.generate_password_hash`,
* `check` models `bcrypt.check_password_hash`,
* `parse` models Python's `datetime.fromisoformat` (returning `none`
  where the library raises `ValueError`),
* `now` models `datetime.utcnow()` at row-insertion time.

Datetimes are modelled as `Int` (a point on a linear time axis), prices
as `Rat` (the handlers only compare them with `0`).  Each handler
returns its HTTP outcome (`Resp`) together with the store after the
request; an error response leaves the store unchanged, matching
Flask-SQLAlchemy request scoping where an early `return` skips
`db.session.commit()` and the session is rolled back at teardown.
-/

namespace EventApp

/-- HTTP outcome of a handler: `ok status payload` or `err status message`
(the JSON error body `{error: message}`). -/
inductive Resp (α : Type) where
  | ok : Nat → α → Resp α
  | err : Nat → String → Resp α
deriving Repr, DecidableEq

/-- Row of the `User` model (app.py lines 30-42). -/
structure User where
  id : Nat
  name : String
  email : String
  password : String
  role : String
  profile_photo : Option String
  created_at : Int
deriving Repr, DecidableEq

/-- Row of the `Event` model (app.py lines 44-57). -/
structure Event where
  id : Nat
  title : String
  description : String
  date : Int
  location : String
  price : Rat
  banner : Option String
  organizer_id : Nat
  created_at : Int
deriving Repr, DecidableEq

/-- Row of the `RSVP` model (app.py lines 59-64). -/
structure RSVP where
  id : Nat
  user_id : Nat
  event_id : Nat
  payment_status : String
  created_at : Int
deriving Repr, DecidableEq

/-- Row of the `Comment` model (app.py lines 66-71). -/
structure Comment where
  id : Nat
  user_id : Nat
  event_id : Nat
  content : String
  timestamp : Int
deriving Repr, DecidableEq

/-- The database: one list per table plus the auto-increment counters. -/
structure Store where
  users : List User
  events : List Event
  rsvps : List RSVP
  comments : List Comment
  nextUserId : Nat
  nextEventId : Nat
  nextRsvpId : Nat
  nextCommentId : Nat
deriving Repr, DecidableEq

/-- Python truthiness of an optional JSON string field:
`not data.get(k)` is true when the key is absent or the string empty. -/
def truthy : Option String → Bool
  | none => false
  | some s => !(s == "")

/-- `User.query.filter_by(email=e).first()`. -/
def findByEmail (s : Store) (e : String) : Option User :=
  s.users.find? (fun u => u.email == e)

/-- `User.query.get(uid)`. -/
def findUser (s : Store) (uid : Nat) : Option User :=
  s.users.find? (fun u => u.id == uid)

/-- `Event.query.get(eid)` / `Event.query.get_or_404(eid)`. -/
def findEvent (s : Store) (eid : Nat) : Option Event :=
  s.events.find? (fun e => e.id == eid)

/-- `RSVP.query.filter_by(user_id=uid, event_id=eid).first()`. -/
def findRsvp (s : Store) (uid eid : Nat) : Option RSVP :=
  s.rsvps.find? (fun r => r.user_id == uid && r.event_id == eid)

/-- JSON body of `POST /api/register`; an absent key is `none`. -/
structure RegisterReq where
  name : Option String := none
  email : Option String := none
  password : Option String := none
  role : Option String := none
deriving Repr, DecidableEq

/-- Handler `register` (app.py lines 74-107).  `hash` is bcrypt, `now`
the insertion clock.  On success the created row is the payload. -/
def register (hash : String → String) (now : Int) (d : RegisterReq) (s : Store) :
    Resp User × Store :=
  if !truthy d.email || !truthy d.password || !truthy d.name then
    (.err 400 "Missing required fields", s)
  else
    match findByEmail s (d.email.getD "") with
    | some _ => (.err 400 "Email already registered", s)
    | none =>
      let u : User :=
        { id := s.nextUserId
          name := d.name.getD ""
          email := d.email.getD ""
          password := hash (d.password.getD "")
          role := d.role.getD "student"
          profile_photo := none
          created_at := now }
      (.ok 201 u, { s with users := s.users ++ [u], nextUserId := s.nextUserId + 1 })

/-- JSON body of `POST /api/login`. -/
structure LoginReq where
  email : Option String := none
  password : Option String := none
deriving Repr, DecidableEq

/-- Handler `login` (app.py lines 109-132); `check` is
`bcrypt.check_password_hash`.  Read-only, so no store is returned. -/
def login (check : String → String → Bool) (d : LoginReq) (s : Store) : Resp User :=
  if !truthy d.email || !truthy d.password then
    .err 400 "Missing email or password"
  else
    match findByEmail s (d.email.getD "") with
    | none => .err 401 "Invalid email or password"
    | some u =>
      if check u.password (d.password.getD "") then .ok 200 u
      else .err 401 "Invalid email or password"

/-- The handlers call `data['date'].replace('Z', '+00:00')` before
parsing; Python `str.replace` rewrites every occurrence, and for the
one-character pattern "Z" that is exactly a character-wise substitution. -/
def replaceZ (ds : String) : String :=
  String.join (ds.toList.map (fun c => if c = 'Z' then "+00:00" else String.singleton c))

/-- JSON body of `POST /api/events` and `PUT /api/events/{id}`. -/
structure EventReq where
  title : Option String := none
  description : Option String := none
  date : Option String := none
  location : Option String := none
  price : Option Rat := none
  banner : Option String := none
deriving Repr, DecidableEq

/-- Handler `create_event` (app.py lines 173-216).  `parse` models
`datetime.fromisoformat`; a missing caller row would raise
`AttributeError` on `user.role`, surfaced as a 500. -/
def create_event (parse : String → Option Int) (now : Int) (uid : Nat)
    (d : EventReq) (s : Store) : Resp Event × Store :=
  match findUser s uid with
  | none => (.err 500 "AttributeError", s)
  | some u =>
    if !(u.role == "organizer") then
      (.err 403 "Only organizers can create events", s)
    else if !truthy d.title || !truthy d.description || !truthy d.date ||
        !truthy d.location then
      (.err 400 "Missing required fields", s)
    else
      match parse (replaceZ (d.date.getD "")) with
      | none => (.err 400 "Invalid date format", s)
      | some t =>
        let ev : Event :=
          { id := s.nextEventId
            title := d.title.getD ""
            description := d.description.getD ""
            date := t
            location := d.location.getD ""
            price := d.price.getD 0
            banner := d.banner
            organizer_id := uid
            created_at := now }
        (.ok 201 ev, { s with events := s.events ++ [ev], nextEventId := s.nextEventId + 1 })

/-- The field-by-field patch of `update_event` (app.py lines 246-260):
string fields are applied only when truthy (`if data.get(k)`), the price
when the key holds a non-null value (`is not None`), and the date, when
truthy, is set to the parsed value. -/
def patchEvent (parse : String → Option Int) (d : EventReq) (ev : Event) : Event :=
  { ev with
    title := if truthy d.title then d.title.getD "" else ev.title
    description := if truthy d.description then d.description.getD "" else ev.description
    date := if truthy d.date then (parse (replaceZ (d.date.getD ""))).getD ev.date else ev.date
    location := if truthy d.location then d.location.getD "" else ev.location
    price := d.price.getD ev.price
    banner := if truthy d.banner then d.banner else ev.banner }

/-- Handler `update_event` (app.py lines 235-264).  A date parse failure
returns 400 before `db.session.commit()`, so nothing is persisted (the
dirty session is rolled back at request teardown). -/
def update_event (parse : String → Option Int) (uid eid : Nat) (d : EventReq)
    (s : Store) : Resp Unit × Store :=
  match findEvent s eid with
  | none => (.err 404 "Not Found", s)
  | some ev =>
    if !(ev.organizer_id == uid) then
      (.err 403 "Only the organizer can update this event", s)
    else if truthy d.date && (parse (replaceZ (d.date.getD ""))).isNone then
      (.err 400 "Invalid date format", s)
    else
      (.ok 200 (),
        { s with events := s.events.map (fun e =>
            if e.id == ev.id then patchEvent parse d ev else e) })

/-- Handler `delete_event` (app.py lines 266-278).  `db.session.delete(event)`
with the default relationship cascade tries to null out `event_id` on the
dependent `RSVP`/`Comment` rows; those columns are `nullable=False` and no
delete cascade is configured, so the commit raises `IntegrityError`
(HTTP 500) whenever dependents exist, and the transaction is rolled back. -/
def delete_event (uid eid : Nat) (s : Store) : Resp Unit × Store :=
  match findEvent s eid with
  | none => (.err 404 "Not Found", s)
  | some ev =>
    if !(ev.organizer_id == uid) then
      (.err 403 "Only the organizer can delete this event", s)
    else if s.rsvps.any (fun r => r.event_id == ev.id) ||
        s.comments.any (fun c => c.event_id == ev.id) then
      (.err 500 "IntegrityError", s)
    else
      (.ok 200 (), { s with events := s.events.filter (fun e => !(e.id == ev.id)) })

/-- JSON body of `POST /api/rsvp`.  `not data.get('event_id')` is also
true for the integer `0`, which Python treats as falsy. -/
structure RsvpReq where
  event_id : Option Nat := none
deriving Repr, DecidableEq

/-- Handler `create_rsvp` (app.py lines 281-306). -/
def create_rsvp (now : Int) (uid : Nat) (d : RsvpReq) (s : Store) :
    Resp RSVP × Store :=
  match d.event_id with
  | none => (.err 400 "Event ID is required", s)
  | some eid =>
    if eid == 0 then (.err 400 "Event ID is required", s)
    else
      match findEvent s eid with
      | none => (.err 404 "Not Found", s)
      | some ev =>
        match findRsvp s uid eid with
        | some _ => (.err 400 "Already RSVP\x27d to this event", s)
        | none =>
          let r : RSVP :=
            { id := s.nextRsvpId
              user_id := uid
              event_id := eid
              payment_status := if ev.price = 0 then "free" else "pending"
              created_at := now }
          (.ok 201 r, { s with rsvps := s.rsvps ++ [r], nextRsvpId := s.nextRsvpId + 1 })

/-- Handler `cancel_rsvp` (app.py lines 308-320); the found row is
deleted by primary key. -/
def cancel_rsvp (uid eid : Nat) (s : Store) : Resp Unit × Store :=
  match findRsvp s uid eid with
  | none => (.err 404 "RSVP not found", s)
  | some r =>
    (.ok 200 (), { s with rsvps := s.rsvps.filter (fun x => !(x.id == r.id)) })

/-- One element of the `GET /api/events` response (app.py lines 159-169). -/
structure EventView where
  id : Nat
  title : String
  description : String
  date : Int
  location : String
  price : Rat
  banner : Option String
  organizer_name : String
  rsvp_count : Nat
deriving Repr, DecidableEq

/-- Serialization of one event row, joining the organizer name and the
RSVP count (`len(event.rsvps)`). -/
def eventView (s : Store) (ev : Event) : EventView :=
  { id := ev.id
    title := ev.title
    description := ev.description
    date := ev.date
    location := ev.location
    price := ev.price
    banner := ev.banner
    organizer_name :=
      match findUser s ev.organizer_id with
      | some o => o.name
      | none => "Unknown"
    rsvp_count := (s.rsvps.filter (fun r => r.event_id == ev.id)).length }

/-- The `ORDER BY date ASC` comparison of `get_events`. -/
def eventLe (a b : Event) : Prop := a.date ≤ b.date

instance : DecidableRel eventLe := fun a b => Int.decLe a.date b.date

instance : IsTotal Event eventLe := ⟨fun a b => Int.le_total a.date b.date⟩

instance : IsTrans Event eventLe := ⟨fun _ _ _ h1 h2 => le_trans h1 h2⟩

/-- Handler `get_events` (app.py lines 152-171):
`Event.query.order_by(Event.date.asc()).all()`, serialized.  The SQL
sort is modelled by a sort on the rows. -/
def get_events (s : Store) : List EventView :=
  (List.insertionSort eventLe s.events).map (eventView s)

/-- One element of the comment-listing response (app.py lines 345-351). -/
structure CommentView where
  id : Nat
  content : String
  timestamp : Int
  user_name : String
  user_id : Nat
deriving Repr, DecidableEq

/-- Serialization of one comment row with the author name joined in. -/
def commentView (s : Store) (c : Comment) : CommentView :=
  { id := c.id
    content := c.content
    timestamp := c.timestamp
    user_name :=
      match findUser s c.user_id with
      | some u => u.name
      | none => "Unknown"
    user_id := c.user_id }

/-- The `ORDER BY timestamp DESC` comparison of `get_comments`. -/
def commentGe (a b : Comment) : Prop := b.timestamp ≤ a.timestamp

instance : DecidableRel commentGe := fun a b => Int.decLe b.timestamp a.timestamp

instance : IsTotal Comment commentGe := ⟨fun a b => Int.le_total b.timestamp a.timestamp⟩

instance : IsTrans Comment commentGe := ⟨fun _ _ _ h1 h2 => le_trans h2 h1⟩

/-- Handler `get_comments` (app.py lines 338-353):
`Comment.query.filter_by(event_id=eid).order_by(Comment.timestamp.desc())`. -/
def get_comments (eid : Nat) (s : Store) : List CommentView :=
  (List.insertionSort commentGe (s.comments.filter (fun c => c.event_id == eid))).map
    (commentView s)

/-- Handler `get_rsvp_status` (app.py lines 322-335): the RSVP state of
one (user, event) pair, with the payment status when present. -/
def get_rsvp_status (uid eid : Nat) (s : Store) : String × Option String :=
  match findRsvp s uid eid with
  | none => ("not_rsvpd", none)
  | some r => ("rsvpd", some r.payment_status)

/-! ### Concrete fixtures

Sample rows and stores used to evaluate the handlers at concrete
inputs; `wParse` is a sample of the external `datetime.fromisoformat`
behaviour (it accepts one normalized timestamp and rejects everything
else, in particular the empty string, on which the library raises). -/

/-- Sample external ISO-8601 parser: `datetime.fromisoformat` accepts
`2025-06-01T10:00:00+00:00` (a normalized timestamp) and raises — here,
returns `none` — on anything else, in particular on `""`. -/
def wParse : String → Option Int :=
  fun ds => if ds == "2025-06-01T10:00:00+00:00" then some 1748772000 else none

/-- Sample external bcrypt hash. -/
def wHash : String → String := fun p => p ++ "#h"

/-- Sample organizer row. -/
def user1 : User :=
  { id := 1, name := "Alice", email := "alice@example.com", password := "h1"
    role := "organizer", profile_photo := none, created_at := 0 }

/-- Sample student row. -/
def user2 : User :=
  { id := 2, name := "Bob", email := "bob@example.com", password := "h2"
    role := "student", profile_photo := none, created_at := 0 }

/-- Sample free event organized by `user1`. -/
def event10 : Event :=
  { id := 10, title := "Old Title", description := "Desc", date := 100
    location := "Hall", price := 0, banner := none, organizer_id := 1, created_at := 0 }

/-- Sample paid event organized by `user1`. -/
def event11 : Event :=
  { id := 11, title := "Paid Gig", description := "Desc", date := 50
    location := "Hall", price := 25, banner := none, organizer_id := 1, created_at := 0 }

/-- Sample RSVP of `user2` to `event10`. -/
def rsvp7 : RSVP :=
  { id := 7, user_id := 2, event_id := 10, payment_status := "free", created_at := 0 }

/-- Sample store: two users, two events, no RSVPs or comments. -/
def baseStore : Store :=
  { users := [user1, user2], events := [event10, event11], rsvps := [], comments := []
    nextUserId := 3, nextEventId := 12, nextRsvpId := 1, nextCommentId := 1 }

/-- Sample store where `user2` has already RSVPed to `event10`. -/
def rsvpStore : Store := { baseStore with rsvps := [rsvp7], nextRsvpId := 8 }

/-! ### Theorems -/

/-- Pairwise distinctness of the stored email addresses (the `unique=True`
constraint on `User.email`). -/
def emailsUnique (s : Store) : Prop :=
  List.Pairwise (fun a b => a.email ≠ b.email) s.users

/-- C7: a registration request carrying an already-registered (nonempty)
email, with name and password supplied, fails with 400
"Email already registered" and leaves the store unchanged; moreover
`register` always preserves duplicate-freedom of the stored emails. -/
theorem register_duplicate_email (hash : String → String) (now : Int)
    (d : RegisterReq) (s : Store) (e : String) (u0 : User)
    (he : d.email = some e) (hne : e ≠ "")
    (hu : findByEmail s e = some u0)
    (hn : truthy d.name = true) (hp : truthy d.password = true) :
    register hash now d s = (.err 400 "Email already registered", s) ∧
    (∀ (d2 : RegisterReq) (s2 : Store), emailsUnique s2 →
      emailsUnique (register hash now d2 s2).2) := by
  constructor
  · unfold register
    have ht : truthy d.email = true := by
      rw [he]; simp [truthy, hne]
    rw [he] at ht ⊢
    simp only [ht, hn, hp, Bool.not_true, Bool.or_self, Bool.or_false, Bool.false_or,
      Bool.or_true, if_false, Option.getD_some, Bool.false_eq_true]
    rw [hu]
  · intro d2 s2 hu2
    unfold register
    split
    · exact hu2
    · split
      · exact hu2
      · rename_i hnone
        simp only [emailsUnique, List.pairwise_append, List.mem_singleton]
        refine ⟨hu2, List.pairwise_singleton _ _, ?_⟩
        intro a ha b hb
        subst hb
        have := List.find?_eq_none.mp hnone a ha
        simpa using this

/-- C8: after the missing-field guard, the two login failure causes — no
user with the email, or a stored user whose password hash does not match —
produce the same response: 401 with body "Invalid email or password". -/
theorem login_uniform_failure (check : String → String → Bool)
    (d1 d2 : LoginReq) (s1 s2 : Store) (u : User)
    (he1 : truthy d1.email = true) (hp1 : truthy d1.password = true)
    (he2 : truthy d2.email = true) (hp2 : truthy d2.password = true)
    (hmiss : findByEmail s1 (d1.email.getD "") = none)
    (hfound : findByEmail s2 (d2.email.getD "") = some u)
    (hbad : check u.password (d2.password.getD "") = false) :
    login check d1 s1 = .err 401 "Invalid email or password" ∧
    login check d2 s2 = login check d1 s1 := by
  have h1 : login check d1 s1 = .err 401 "Invalid email or password" := by
    unfold login
    simp only [he1, hp1, Bool.not_true, Bool.or_self, if_false, Bool.false_eq_true]
    rw [hmiss]
  have h2 : login check d2 s2 = .err 401 "Invalid email or password" := by
    unfold login
    simp only [he2, hp2, Bool.not_true, Bool.or_self, if_false, Bool.false_eq_true]
    rw [hfound]
    simp [hbad]
  exact ⟨h1, h2.trans h1.symm⟩

/-- C10: a successful registration stores the caller-supplied role field
verbatim whenever it is present in the body — any string, including
"organizer", with no validation — and defaults the role to "student"
exactly when the field is absent. -/
theorem register_role_verbatim (hash : String → String) (now : Int)
    (d : RegisterReq) (s : Store) (u : User) (s2 : Store)
    (hok : register hash now d s = (.ok 201 u, s2)) :
    u.role = d.role.getD "student" ∧
    (∀ r, d.role = some r → u.role = r) ∧
    (d.role = none → u.role = "student") ∧
    (d.role = some "organizer" → u.role = "organizer") := by
  have hrole : u.role = d.role.getD "student" := by
    unfold register at hok
    split at hok
    · exact absurd (congrArg Prod.fst hok) (by simp)
    · split at hok
      · exact absurd (congrArg Prod.fst hok) (by simp)
      · have := congrArg Prod.fst hok
        simp only [Resp.ok.injEq, true_and] at this
        rw [← this]
  refine ⟨hrole, ?_, ?_, ?_⟩
  · intro r hr; rw [hrole, hr, Option.getD_some]
  · intro hr; rw [hrole, hr, Option.getD_none]
  · intro hr; rw [hrole, hr, Option.getD_some]

/-- Witness for C7: registering `alice@example.com` a second time against
`baseStore` fails with the duplicate-email conflict and changes nothing. -/
theorem register_duplicate_email_witness :
    register wHash 0
        { name := some "Carol", email := some "alice@example.com", password := some "pw" }
        baseStore
      = (.err 400 "Email already registered", baseStore) :=
  (register_duplicate_email wHash 0
    { name := some "Carol", email := some "alice@example.com", password := some "pw" }
    baseStore "alice@example.com" user1 rfl (by decide) (by decide) (by decide) (by decide)).1

/-- Witness for C8: against `baseStore`, a login with an unknown email and
a login with Alice's email but a rejected password produce the same
401 response. -/
theorem login_uniform_failure_witness :
    login (fun _ _ => false) { email := some "nobody@example.com", password := some "pw" }
        baseStore
      = .err 401 "Invalid email or password" ∧
    login (fun _ _ => false) { email := some "alice@example.com", password := some "pw" }
        baseStore
      = login (fun _ _ => false) { email := some "nobody@example.com", password := some "pw" }
        baseStore :=
  login_uniform_failure (fun _ _ => false)
    { email := some "nobody@example.com", password := some "pw" }
    { email := some "alice@example.com", password := some "pw" }
    baseStore baseStore user1 (by decide) (by decide) (by decide) (by decide)
    (by decide) (by decide) rfl

/-- Registration request used by the C10 witness: an unauthenticated body
asking for the "organizer" role. -/
def wRegReq : RegisterReq :=
  { name := some "Carol", email := some "carol@example.com"
    password := some "pw", role := some "organizer" }

/-- The user row created by `register wHash 5 wRegReq baseStore`. -/
def wRegUser : User :=
  { id := 3, name := "Carol", email := "carol@example.com", password := "pw#h"
    role := "organizer", profile_photo := none, created_at := 5 }

/-- The store after `register wHash 5 wRegReq baseStore`. -/
def wRegStore : Store :=
  { baseStore with users := baseStore.users ++ [wRegUser], nextUserId := 4 }

/-- Witness for C10: the account created from `wRegReq` carries the
caller-chosen role "organizer" verbatim. -/
theorem register_role_verbatim_witness : wRegUser.role = "organizer" :=
  (register_role_verbatim wHash 5 wRegReq baseStore wRegUser wRegStore
    (by decide)).2.2.2 rfl

/-- Pairwise distinctness of the (user_id, event_id) keys of the RSVP
table — the invariant of spec section 3. -/
def rsvpKeyUnique (s : Store) : Prop :=
  List.Pairwise (fun a b => ¬(a.user_id = b.user_id ∧ a.event_id = b.event_id)) s.rsvps

/-- C1: when an RSVP for the caller and the (existing, nonzero-id) target
event is already stored, `create_rsvp` fails with 400 "Already RSVP'd to
this event" and adds nothing; and both `create_rsvp` and `cancel_rsvp`
preserve uniqueness of the (user_id, event_id) keys over the RSVP table. -/
theorem rsvp_unique_invariant (now : Int) (uid eid : Nat) (d : RsvpReq) (s : Store)
    (ev : Event) (r0 : RSVP)
    (hd : d.event_id = some eid) (h0 : eid ≠ 0) (hev : findEvent s eid = some ev)
    (hr : r0 ∈ s.rsvps) (hru : r0.user_id = uid) (hre : r0.event_id = eid) :
    create_rsvp now uid d s = (.err 400 "Already RSVP\x27d to this event", s) ∧
    (∀ (now2 : Int) (uid2 : Nat) (d2 : RsvpReq) (s2 : Store), rsvpKeyUnique s2 →
      rsvpKeyUnique (create_rsvp now2 uid2 d2 s2).2) ∧
    (∀ (uid2 eid2 : Nat) (s2 : Store), rsvpKeyUnique s2 →
      rsvpKeyUnique (cancel_rsvp uid2 eid2 s2).2) := by
  refine ⟨?_, ?_, ?_⟩
  · unfold create_rsvp
    have h0b : (eid == 0) = false := by simpa using h0
    simp only [hd, h0b, Bool.false_eq_true, if_false, hev]
    rcases hfind : findRsvp s uid eid with _ | r1
    · exfalso
      have := List.find?_eq_none.mp hfind r0 hr
      simp [hru, hre] at this
    · simp only [hfind]
  · intro now2 uid2 d2 s2 hu2
    unfold create_rsvp
    split
    · exact hu2
    · split
      · exact hu2
      · split
        · exact hu2
        · split
          · exact hu2
          · rename_i hnone
            simp only [rsvpKeyUnique, List.pairwise_append, List.mem_singleton]
            refine ⟨hu2, List.pairwise_singleton _ _, ?_⟩
            intro a ha b hb
            subst hb
            have := List.find?_eq_none.mp hnone a ha
            simp only [Bool.and_eq_true, beq_iff_eq, not_and] at this
            intro hk
            exact this hk.1 hk.2
  · intro uid2 eid2 s2 hu2
    unfold cancel_rsvp
    split
    · exact hu2
    · exact List.Pairwise.sublist (List.filter_sublist _) hu2

/-- Witness for C1: with `rsvp7` already stored, a second RSVP by user 2
to event 10 fails with the duplicate error and leaves `rsvpStore` as is. -/
theorem rsvp_unique_invariant_witness :
    create_rsvp 9 2 { event_id := some 10 } rsvpStore
      = (.err 400 "Already RSVP\x27d to this event", rsvpStore) :=
  (rsvp_unique_invariant 9 2 10 { event_id := some 10 } rsvpStore event10 rsvp7
    rfl (by decide) (by decide) (by decide) (by decide) (by decide)).1

/-- C2: every successful `create_rsvp` targets an existing event of the
request body, and the stored payment_status is "free" exactly when that
event's price is 0 at creation time, "pending" in every other case. -/
theorem rsvp_payment_status (now : Int) (uid : Nat) (d : RsvpReq) (s : Store)
    (r : RSVP) (s2 : Store)
    (hok : create_rsvp now uid d s = (.ok 201 r, s2)) :
    ∃ eid ev, d.event_id = some eid ∧ findEvent s eid = some ev ∧
      (r.payment_status = "free" ↔ ev.price = 0) ∧
      (¬ ev.price = 0 → r.payment_status = "pending") := by
  unfold create_rsvp at hok
  rcases hd : d.event_id with _ | eid
  · simp only [hd] at hok
    exact absurd (congrArg Prod.fst hok) (by simp)
  · simp only [hd] at hok
    by_cases h0 : (eid == 0) = true
    · rw [if_pos h0] at hok
      exact absurd (congrArg Prod.fst hok) (by simp)
    · rw [if_neg h0] at hok
      rcases hev : findEvent s eid with _ | ev
      · simp only [hev] at hok
        exact absurd (congrArg Prod.fst hok) (by simp)
      · simp only [hev] at hok
        rcases hfr : findRsvp s uid eid with _ | r1
        · simp only [hfr] at hok
          have hr : r =
              { id := s.nextRsvpId, user_id := uid, event_id := eid,
                payment_status := if ev.price = 0 then "free" else "pending",
                created_at := now } := by
            have := congrArg Prod.fst hok
            simp only [Resp.ok.injEq, true_and] at this
            exact this.symm
          refine ⟨eid, ev, rfl, hev, ?_, ?_⟩
          · by_cases hp : ev.price = 0
            · simp [hr, hp]
            · simp [hr, hp]
          · intro hp
            simp [hr, hp]
        · simp only [hfr] at hok
          exact absurd (congrArg Prod.fst hok) (by simp)

/-- The RSVP row created when user 2 RSVPs to the free event 10. -/
def wRsvpFree : RSVP :=
  { id := 1, user_id := 2, event_id := 10, payment_status := "free", created_at := 9 }

/-- The RSVP row created when user 2 RSVPs to the paid event 11. -/
def wRsvpPend : RSVP :=
  { id := 1, user_id := 2, event_id := 11, payment_status := "pending", created_at := 9 }

/-- Witness for C2: user 2 RSVPs to the free event 10 and to the paid
event 11 of `baseStore`; the stored statuses are "free" and "pending". -/
theorem rsvp_payment_status_witness :
    (wRsvpFree.payment_status = "free" ↔ event10.price = 0) ∧
    (¬ event11.price = 0 → wRsvpPend.payment_status = "pending") := by
  constructor
  · have h := rsvp_payment_status 9 2 { event_id := some 10 } baseStore wRsvpFree
      { baseStore with rsvps := [wRsvpFree], nextRsvpId := 2 }
      (by decide)
    obtain ⟨eid, ev, hd, hev, hiff, _⟩ := h
    have heid : eid = 10 := by simpa using hd.symm
    subst heid
    have hev10 : ev = event10 := by
      have he : findEvent baseStore 10 = some event10 := by decide
      rw [he] at hev
      exact (Option.some_inj.mp hev).symm
    rw [← hev10]
    exact hiff
  · have h := rsvp_payment_status 9 2 { event_id := some 11 } baseStore wRsvpPend
      { baseStore with rsvps := [wRsvpPend], nextRsvpId := 2 }
      (by decide)
    obtain ⟨eid, ev, hd, hev, _, hpend⟩ := h
    have heid : eid = 11 := by simpa using hd.symm
    subst heid
    have hev11 : ev = event11 := by
      have he : findEvent baseStore 11 = some event11 := by decide
      rw [he] at hev
      exact (Option.some_inj.mp hev).symm
    intro hp
    exact hpend (by rw [hev11]; exact hp)

/-- C3: for an existing event, `update_event` and `delete_event` return
403 and leave the store unchanged whenever the caller is not the
organizer, and they can only succeed when the caller is the organizer. -/
theorem organizer_only_mutation (parse : String → Option Int) (uid eid : Nat)
    (d : EventReq) (s : Store) (ev : Event)
    (hev : findEvent s eid = some ev) :
    (¬ ev.organizer_id = uid →
      update_event parse uid eid d s =
        (.err 403 "Only the organizer can update this event", s) ∧
      delete_event uid eid s =
        (.err 403 "Only the organizer can delete this event", s)) ∧
    (∀ (x : Unit) (s2 : Store), update_event parse uid eid d s = (.ok 200 x, s2) →
      ev.organizer_id = uid) ∧
    (∀ (x : Unit) (s2 : Store), delete_event uid eid s = (.ok 200 x, s2) →
      ev.organizer_id = uid) := by
  refine ⟨?_, ?_, ?_⟩
  · intro hne
    have hb : (ev.organizer_id == uid) = false := by simpa using hne
    constructor
    · unfold update_event
      simp [hev, hb]
    · unfold delete_event
      simp [hev, hb]
  · intro x s2 hok
    by_contra hne
    have hb : (ev.organizer_id == uid) = false := by simpa using hne
    unfold update_event at hok
    simp only [hev, hb, Bool.not_false, if_true] at hok
    exact absurd (congrArg Prod.fst hok) (by simp)
  · intro x s2 hok
    by_contra hne
    have hb : (ev.organizer_id == uid) = false := by simpa using hne
    unfold delete_event at hok
    simp only [hev, hb, Bool.not_false, if_true] at hok
    exact absurd (congrArg Prod.fst hok) (by simp)

/-- Witness for C3: user 2, who is authenticated but not the organizer of
event 10, gets 403 from both mutation handlers and nothing changes. -/
theorem organizer_only_mutation_witness :
    update_event wParse 2 10 {} baseStore =
      (.err 403 "Only the organizer can update this event", baseStore) ∧
    delete_event 2 10 baseStore =
      (.err 403 "Only the organizer can delete this event", baseStore) :=
  (organizer_only_mutation wParse 2 10 {} baseStore event10 (by decide)).1 (by decide)

/-- C4 (failing input): event 10 has the dependent row `rsvp7`, so the
organizer's delete hits the NOT NULL foreign keys — no delete cascade is
configured on the relationships — raising IntegrityError (500); the event,
its RSVP and all rows survive, where the spec asks for a cascade delete. -/
theorem delete_event_no_cascade :
    rsvp7.event_id = 10 ∧
    delete_event 1 10 rsvpStore = (.err 500 "IntegrityError", rsvpStore) ∧
    findEvent (delete_event 1 10 rsvpStore).2 10 = some event10 ∧
    rsvp7 ∈ (delete_event 1 10 rsvpStore).2.rsvps := by
  refine ⟨rfl, by decide, by decide, ?_⟩
  have h : delete_event 1 10 rsvpStore = (.err 500 "IntegrityError", rsvpStore) := by decide
  rw [h]
  exact List.mem_singleton.mpr rfl

/-- Counterexample to C5 as stated: the body supplies title = "" for
event 10; the organizer's update succeeds (200) yet the stored title is
unchanged, so a supplied field was not applied (`data.get('title')` is
falsy for the empty string). -/
theorem update_event_empty_title_skipped :
    ({ title := some "" } : EventReq).title = some "" ∧
    (update_event wParse 1 10 { title := some "" } baseStore).1 = Resp.ok 200 () ∧
    findEvent (update_event wParse 1 10 { title := some "" } baseStore).2 10
      = some event10 ∧
    ¬ event10.title = "" := by
  refine ⟨rfl, by decide, by decide, by decide⟩

/-- C5 amended: an organizer update that passes date validation replaces
the target event by `patchEvent` and touches nothing else; title,
description, date, location and banner are overwritten exactly when
supplied truthy (present and non-empty), price exactly when present
(any non-null value, including 0), and id, organizer_id and created_at
are never changed. -/
theorem update_event_patch_semantics (parse : String → Option Int) (uid eid : Nat)
    (d : EventReq) (s : Store) (ev : Event)
    (hev : findEvent s eid = some ev) (hown : ev.organizer_id = uid)
    (hdate : ¬(truthy d.date = true ∧ parse (replaceZ (d.date.getD "")) = none)) :
    update_event parse uid eid d s =
      (.ok 200 (), { s with events := s.events.map (fun e =>
          if e.id == ev.id then patchEvent parse d ev else e) }) ∧
    (patchEvent parse d ev).id = ev.id ∧
    (patchEvent parse d ev).organizer_id = ev.organizer_id ∧
    (patchEvent parse d ev).created_at = ev.created_at ∧
    (truthy d.title = true → (patchEvent parse d ev).title = d.title.getD "") ∧
    (truthy d.title = false → (patchEvent parse d ev).title = ev.title) ∧
    (truthy d.description = true →
      (patchEvent parse d ev).description = d.description.getD "") ∧
    (truthy d.description = false →
      (patchEvent parse d ev).description = ev.description) ∧
    (∀ t, parse (replaceZ (d.date.getD "")) = some t → truthy d.date = true →
      (patchEvent parse d ev).date = t) ∧
    (truthy d.date = false → (patchEvent parse d ev).date = ev.date) ∧
    (truthy d.location = true → (patchEvent parse d ev).location = d.location.getD "") ∧
    (truthy d.location = false → (patchEvent parse d ev).location = ev.location) ∧
    (∀ p, d.price = some p → (patchEvent parse d ev).price = p) ∧
    (d.price = none → (patchEvent parse d ev).price = ev.price) ∧
    (truthy d.banner = true → (patchEvent parse d ev).banner = d.banner) ∧
    (truthy d.banner = false → (patchEvent parse d ev).banner = ev.banner) := by
  have hb : (ev.organizer_id == uid) = true := by simpa using hown
  have hno : (truthy d.date && (parse (replaceZ (d.date.getD ""))).isNone) = false := by
    rcases ht : truthy d.date with _ | _
    · simp
    · rcases hp : parse (replaceZ (d.date.getD "")) with _ | t
      · exact absurd ⟨rfl, hp⟩ (ht ▸ hdate)
      · simp [hp]
  refine ⟨?_, rfl, rfl, rfl, ?_, ?_, ?_, ?_, ?_, ?_, ?_, ?_, ?_, ?_, ?_, ?_⟩
  · unfold update_event
    simp only [hev, hb, Bool.not_true, Bool.false_eq_true, if_false, hno]
  · intro h; simp [patchEvent, h]
  · intro h; simp [patchEvent, h]
  · intro h; simp [patchEvent, h]
  · intro h; simp [patchEvent, h]
  · intro t hp h; simp [patchEvent, h, hp]
  · intro h; simp [patchEvent, h]
  · intro h; simp [patchEvent, h]
  · intro h; simp [patchEvent, h]
  · intro p hp; simp [patchEvent, hp]
  · intro hp; simp [patchEvent, hp]
  · intro h; simp [patchEvent, h]
  · intro h; simp [patchEvent, h]

/-- Witness for C5 (amended): the organizer renames event 10 and sets the
price; the handler answers 200 and rewrites exactly that event. -/
theorem update_event_patch_semantics_witness :
    update_event wParse 1 10 { title := some "New", price := some 3 } baseStore =
      (.ok 200 (), { baseStore with events := baseStore.events.map (fun e =>
          if e.id == event10.id then
            patchEvent wParse { title := some "New", price := some 3 } event10
          else e) }) :=
  (update_event_patch_semantics wParse 1 10 { title := some "New", price := some 3 }
    baseStore event10 (by decide) (by decide) (by decide)).1

/-- Counterexample to C6 as stated: the empty string is a malformed date
(the external parser rejects it), yet supplying date = "" to
`update_event` does not yield 400 "Invalid date format" — the falsy field
is skipped and the update succeeds. -/
theorem update_event_empty_date_no_validation :
    wParse (replaceZ "") = none ∧
    ({ date := some "" } : EventReq).date = some "" ∧
    (update_event wParse 1 10 { date := some "" } baseStore).1 = Resp.ok 200 () := by
  refine ⟨by decide, rfl, by decide⟩

/-- C6 amended: for every nonempty date string in the body (an empty one
is treated as absent), both handlers parse the string with every "Z"
replaced by "+00:00"; when the parse fails the operation returns exactly
400 "Invalid date format" and changes nothing, and when it succeeds the
parsed instant is stored. -/
theorem date_parse_validation (parse : String → Option Int) (now : Int) (uid : Nat)
    (d : EventReq) (s : Store) (u : User) (ds : String)
    (hu : findUser s uid = some u) (hrole : u.role = "organizer")
    (hds : d.date = some ds) (hne : ¬ ds = "")
    (ht : truthy d.title = true) (hdesc : truthy d.description = true)
    (hloc : truthy d.location = true) :
    (parse (replaceZ ds) = none →
      create_event parse now uid d s = (.err 400 "Invalid date format", s)) ∧
    (∀ t ev s2, parse (replaceZ ds) = some t →
      create_event parse now uid d s = (.ok 201 ev, s2) → ev.date = t) ∧
    (∀ eid ev, findEvent s eid = some ev → ev.organizer_id = uid →
      parse (replaceZ ds) = none →
      update_event parse uid eid d s = (.err 400 "Invalid date format", s)) := by
  have hdt : truthy d.date = true := by rw [hds]; simpa [truthy] using hne
  have hrb : (u.role == "organizer") = true := by simpa using hrole
  have hgd : d.date.getD "" = ds := by rw [hds]; rfl
  refine ⟨?_, ?_, ?_⟩
  · intro hp
    unfold create_event
    simp only [hu, hrb, Bool.not_true, Bool.false_eq_true, if_false,
      ht, hdesc, hloc, hdt, Bool.or_self, Bool.or_false, Bool.false_or, hgd, hp]
  · intro t ev s2 hp hok
    unfold create_event at hok
    simp only [hu, hrb, Bool.not_true, Bool.false_eq_true, if_false,
      ht, hdesc, hloc, hdt, Bool.or_self, Bool.or_false, Bool.false_or, hgd, hp] at hok
    have := congrArg Prod.fst hok
    simp only [Resp.ok.injEq, true_and] at this
    rw [← this]
  · intro eid ev hev hown hp
    have hb : (ev.organizer_id == uid) = true := by simpa using hown
    unfold update_event
    simp only [hev, hb, Bool.not_true, Bool.false_eq_true, if_false,
      hdt, hgd, hp, Option.isNone_none, Bool.and_true, if_true]

/-- Witness for C6 (amended): with a malformed nonempty date the create
fails with exactly the validation error; with the well-formed
`2025-06-01T10:00:00Z` (trailing Z) the stored date is the parsed instant. -/
theorem date_parse_validation_witness :
    create_event wParse 0 1
        { title := some "T", description := some "D", date := some "junk",
          location := some "L" } baseStore
      = (.err 400 "Invalid date format", baseStore) ∧
    wParse (replaceZ "2025-06-01T10:00:00Z") = some 1748772000 := by
  constructor
  · exact (date_parse_validation wParse 0 1
      { title := some "T", description := some "D", date := some "junk",
        location := some "L" }
      baseStore user1 "junk" (by decide) rfl rfl (by decide) rfl rfl rfl).1 (by decide)
  · decide

/-- C9: `get_events` returns the serialization of all events sorted by
date ascending, and `get_comments` returns the serialization of exactly
the event's comments sorted by timestamp descending. -/
theorem listings_sorted (s : Store) (eid : Nat) :
    List.Pairwise (fun a b => a.date ≤ b.date) (get_events s) ∧
    List.Perm (get_events s) (s.events.map (eventView s)) ∧
    List.Pairwise (fun a b => b.timestamp ≤ a.timestamp) (get_comments eid s) ∧
    List.Perm (get_comments eid s)
      ((s.comments.filter (fun c => c.event_id == eid)).map (commentView s)) := by
  refine ⟨?_, ?_, ?_, ?_⟩
  · unfold get_events
    rw [List.pairwise_map]
    exact List.sorted_insertionSort eventLe s.events
  · unfold get_events
    exact (List.perm_insertionSort eventLe s.events).map (eventView s)
  · unfold get_comments
    rw [List.pairwise_map]
    exact List.sorted_insertionSort commentGe _
  · unfold get_comments
    exact (List.perm_insertionSort commentGe _).map (commentView s)

end EventApp
